import Mathlib

/-!
Shallow embedding of the `x-topic-analyzer` pipeline
(`src/x_topic_analyzer.py` and `src/test_analyzer.py`).

External effects (the X search API, the DeepSeek completion API, the
filesystem writes of the exporter) are modelled as explicit function
parameters returning `Except`-style outcomes, so that the try/except
structure of the Python code is mirrored by pattern matches.  Machine
strings are Lean `String`s (Python slices by code point, as does
`String.data`).
-/

namespace XTopic

/-- Zero-padded two-digit rendering, as in CPython strftime fields. -/
def pad2 (n : Nat) : String :=
  if n < 10 then "0" ++ toString n else toString n

/-- Zero-padded four-digit rendering of a year, as in strftime %Y. -/
def pad4 (n : Nat) : String :=
  if n < 10 then "000" ++ toString n
  else if n < 100 then "00" ++ toString n
  else if n < 1000 then "0" ++ toString n
  else toString n

/-- Timestamp carried by a tweet or taken from the wall clock. -/
structure PyDateTime where
  year : Nat
  month : Nat
  day : Nat
  hour : Nat
  minute : Nat
  second : Nat
deriving Repr, DecidableEq

/-- Rendering of `strftime(\x27%Y-%m-%d %H:%M\x27)` used for the Post Date column. -/
def strftimeDateHM (d : PyDateTime) : String :=
  pad4 d.year ++ "-" ++ pad2 d.month ++ "-" ++ pad2 d.day ++ " "
    ++ pad2 d.hour ++ ":" ++ pad2 d.minute

/-- Rendering of `strftime(\x27%Y%m%d_%H%M%S\x27)` used for generated filenames. -/
def strftimeStamp (d : PyDateTime) : String :=
  pad4 d.year ++ pad2 d.month ++ pad2 d.day ++ "_"
    ++ pad2 d.hour ++ pad2 d.minute ++ pad2 d.second

/-- Whitespace set stripped by Python `str.strip()`. -/
def pyIsSpace (c : Char) : Bool :=
  (c == ' ') || (c == '\t') || (c == '\n') || (c == '\r') || (c == '\x0b') || (c == '\x0c')

/-- Python `s.strip()`: drop whitespace from both ends of the string. -/
def pyStrip (s : String) : String :=
  String.mk (((s.data.dropWhile pyIsSpace).reverse.dropWhile pyIsSpace).reverse)

/-- Python `s.endswith(t)` over code points. -/
def pyEndsWith (s t : String) : Bool :=
  t.data.isSuffixOf s.data

/-- Left-to-right non-overlapping replacement over code points, the loop
of Python `str.replace` for a non-empty pattern; the first argument skips
the tail of a match already consumed. -/
def replaceCharsAux (pat rep : List Char) : Nat → List Char → List Char
  | _, [] => []
  | 0, c :: rest =>
      if pat.isPrefixOf (c :: rest) then
        rep ++ replaceCharsAux pat rep (pat.length - 1) rest
      else c :: replaceCharsAux pat rep 0 rest
  | k + 1, _ :: rest => replaceCharsAux pat rep k rest

/-- Python `s.replace(pat, rep)` for the non-empty patterns the code
uses (an empty pattern is returned unchanged here; the repository only
ever replaces the literal `.xlsx`). -/
def pyReplace (s pat rep : String) : String :=
  if pat.data.isEmpty then s
  else String.mk (replaceCharsAux pat.data rep.data 0 s.data)

/-- Author record from the `users` expansion of the search response. -/
structure XUser where
  id : Nat
  username : String
  name : String
  verified : Bool
deriving Repr, DecidableEq

/-- One tweet of the search response, with the fields the code reads. -/
structure XTweet where
  id : Nat
  text : String
  created_at : PyDateTime
  author_id : Nat
  retweet_count : Nat
  like_count : Nat
  reply_count : Nat
deriving Repr, DecidableEq

/-- Body of the value returned by `client.search_recent_tweets`:
`data` is the tweet list (empty list models `tweets.data` being falsy) and
`includes_users` models `tweets.includes[\x27users\x27]` when present. -/
structure SearchResponse where
  data : List XTweet
  includes_users : Option (List XUser)
deriving Repr, DecidableEq

/-- Dictionary built by `users[user.id] = user` over the includes list;
a later entry with the same id overwrites an earlier one, and `usersGet`
is `users.get(author_id)`. -/
def usersGet (us : List XUser) (aid : Nat) : Option XUser :=
  us.foldl (fun acc u => if u.id = aid then some u else acc) none

/-- Per-post dictionary assembled by `search_x_posts`. -/
structure PostInfo where
  tweet_id : Nat
  text : String
  created_at : PyDateTime
  author_id : Nat
  author_username : String
  author_name : String
  author_verified : Bool
  retweet_count : Nat
  like_count : Nat
  reply_count : Nat
  url : String
deriving Repr, DecidableEq

/-- Mapping of one tweet to its `post_info` dictionary, given the users
dictionary (lines 100-117 of `x_topic_analyzer.py`). -/
def postInfoOfTweet (users : List XUser) (tweet : XTweet) : PostInfo :=
  let author := usersGet users tweet.author_id
  { tweet_id := tweet.id
    text := tweet.text
    created_at := tweet.created_at
    author_id := tweet.author_id
    author_username := match author with | some a => a.username | none => "unknown"
    author_name := match author with | some a => a.name | none => "unknown"
    author_verified := match author with | some a => a.verified | none => false
    retweet_count := tweet.retweet_count
    like_count := tweet.like_count
    reply_count := tweet.reply_count
    url := "https://twitter.com/"
      ++ (match author with | some a => a.username | none => "unknown")
      ++ "/status/" ++ toString tweet.id }

/-- Search query constructed at line 76. -/
def searchQuery (keyword : String) : String :=
  keyword ++ " -is:retweet lang:en"

/-- Body of the `try` block of `search_x_posts`: the API call is the
function argument `searchCall` (applied to the query and the capped
result count) and may fail; the body then maps the tweets. -/
def search_x_posts_try (searchCall : String → Nat → Except String SearchResponse)
    (keyword : String) (max_results : Nat) : Except String (List PostInfo) :=
  match searchCall (searchQuery keyword) (min max_results 100) with
  | Except.error e => Except.error e
  | Except.ok tweets =>
    if tweets.data.isEmpty then
      Except.ok []
    else
      let users := tweets.includes_users.getD []
      Except.ok (tweets.data.map (postInfoOfTweet users))

/-- Whole of `search_x_posts`: the `except Exception` clause converts any
failure of the body into the empty list (lines 121-124). -/
def search_x_posts (searchCall : String → Nat → Except String SearchResponse)
    (keyword : String) (max_results : Nat) : List PostInfo :=
  match search_x_posts_try searchCall keyword max_results with
  | Except.ok posts => posts
  | Except.error _ => []

/-- Prompt built by `generate_summary_with_deepseek` (lines 139-148). -/
def summaryPrompt (text keyword : String) : String :=
  "Analyze this social media post about \x27" ++ keyword
    ++ "\x27 and provide a brief, objective summary (max 2-3 sentences):\n\nPost: "
    ++ text
    ++ "\n\nFocus on:\n1. Main point or claim\n2. Key context\n3. Relevance to topic\n\nSummary:"

/-- Body of the `try` block of `generate_summary_with_deepseek`: the
completion endpoint is the argument `completion`, returning the list of
choice contents; `choices[0]` on an empty list is an in-body failure. -/
def generate_summary_try (completion : String → Except String (List String))
    (text keyword : String) : Except String String :=
  match completion (summaryPrompt text keyword) with
  | Except.error e => Except.error e
  | Except.ok choices =>
    match choices.head? with
    | some content => Except.ok (pyStrip content)
    | none => Except.error "IndexError: list index out of range"

/-- Whole of `generate_summary_with_deepseek`: any failure of the body is
converted into the sentinel string (lines 163-166). -/
def generate_summary_with_deepseek (completion : String → Except String (List String))
    (text keyword : String) : String :=
  match generate_summary_try completion text keyword with
  | Except.ok s => s
  | Except.error _ => "Summary generation failed"

/-- Truncation of the Original Text column (line 203):
`post[\x27text\x27][:200] + \x27...\x27 if len(post[\x27text\x27]) > 200 else post[\x27text\x27]`. -/
def truncateText (t : String) : String :=
  if t.length > 200 then String.mk (t.data.take 200) ++ "..." else t

/-- One output row of the analysis (the dictionary at lines 196-205). -/
structure AnalyzedRow where
  topic : String
  author : String
  authorVerified : Bool
  postDate : String
  postLink : String
  shortSummary : String
  originalText : String
  engagement : String
deriving Repr, DecidableEq

/-- Assembly of one analyzed row from a post and its summary. -/
def makeRow (keyword : String) (post : PostInfo) (summary : String) : AnalyzedRow :=
  { topic := keyword
    author := post.author_name ++ " (@" ++ post.author_username ++ ")"
    authorVerified := post.author_verified
    postDate := strftimeDateHM post.created_at
    postLink := post.url
    shortSummary := summary
    originalText := truncateText post.text
    engagement := "❤️ " ++ toString post.like_count ++ " | 🔄 "
      ++ toString post.retweet_count ++ " | 💬 " ++ toString post.reply_count }

/-- Pure row-assembly mapping (the ResultAssembler of the spec): pairs
each post with its summary and builds the rows in fetch order. -/
def assembleRows (keyword : String) (posts : List PostInfo)
    (summaries : List String) : List AnalyzedRow :=
  (posts.zip summaries).map (fun ps => makeRow keyword ps.1 ps.2)

/-- The `analyze_topic` method (lines 168-211): fetch, early return on an
empty fetch, then one summarize-and-assemble step per post in order. -/
def analyze_topic (searchCall : String → Nat → Except String SearchResponse)
    (completion : String → Except String (List String))
    (keyword : String) (max_posts : Nat) : List AnalyzedRow :=
  let posts := search_x_posts searchCall keyword max_posts
  if posts.isEmpty then []
  else posts.map (fun post =>
    makeRow keyword post (generate_summary_with_deepseek completion post.text keyword))

/-- Kind of Python exception an attempted spreadsheet write can raise:
`importError` models a missing `openpyxl` dependency, `otherError` every
other failure (I/O error, permission error, ...). -/
inductive PyError where
  | importError : PyError
  | otherError : String → PyError
deriving Repr, DecidableEq

/-- Observable outcome of one call to an exporter: the filename the call
decided on (generated or given; `none` when it returned early), the files
actually written, the filename printed in the saved-to message, and the
exception that escaped the call, if any. -/
structure SaveResult where
  decidedFilename : Option String
  writes : List String
  reported : Option String
  raised : Option PyError
deriving Repr, DecidableEq

/-- Filename generated by `XTopicAnalyzer.save_to_excel` when none is
given (lines 226-228): always the `.xlsx` extension. -/
def genFilename (now : PyDateTime) : String :=
  "x_analysis_" ++ strftimeStamp now ++ ".xlsx"

/-- The `XTopicAnalyzer.save_to_excel` method (lines 213-263): early
return on an empty frame, otherwise one spreadsheet write (the argument
`excelWrite`, covering the whole `pd.ExcelWriter` block) with no
try/except around it, so any failure escapes the method. -/
def save_to_excel (rows : List AnalyzedRow) (filename : Option String)
    (now : PyDateTime) (excelWrite : String → Option PyError) : SaveResult :=
  if rows.isEmpty then
    { decidedFilename := none, writes := [], reported := none, raised := none }
  else
    let fname := filename.getD (genFilename now)
    match excelWrite fname with
    | none =>
        { decidedFilename := some fname, writes := [fname],
          reported := some fname, raised := none }
    | some e =>
        { decidedFilename := some fname, writes := [], reported := none,
          raised := some e }

/-- Filename generated by `MockXTopicAnalyzer.save_to_excel` when none is
given (lines 121-129 of `test_analyzer.py`): `.xlsx` when `openpyxl`
imports, `.csv` when the import raises ImportError. -/
def mockGenFilename (openpyxlAvailable : Bool) (now : PyDateTime) : String :=
  if openpyxlAvailable then "x_analysis_mock_" ++ strftimeStamp now ++ ".xlsx"
  else "x_analysis_mock_" ++ strftimeStamp now ++ ".csv"

/-- The `MockXTopicAnalyzer.save_to_excel` method (lines 109-179 of
`test_analyzer.py`): early return on empty, capability-dependent
generated filename, then a try block writing `.xlsx` via `excelWrite` or
anything else via `csvWrite`, whose `except ImportError` clause rewrites
the filename with `filename.replace(\x27.xlsx\x27, \x27.csv\x27)` and
writes CSV instead; any exception other than ImportError escapes. -/
def mock_save_to_excel (rows : List AnalyzedRow) (filename : Option String)
    (now : PyDateTime) (openpyxlAvailable : Bool)
    (excelWrite : String → Option PyError)
    (csvWrite : String → Option PyError) : SaveResult :=
  if rows.isEmpty then
    { decidedFilename := none, writes := [], reported := none, raised := none }
  else
    let fname := filename.getD (mockGenFilename openpyxlAvailable now)
    if pyEndsWith fname ".xlsx" then
      match excelWrite fname with
      | none =>
          { decidedFilename := some fname, writes := [fname],
            reported := some fname, raised := none }
      | some PyError.importError =>
          let csvName := pyReplace fname ".xlsx" ".csv"
          match csvWrite csvName with
          | none =>
              { decidedFilename := some fname, writes := [csvName],
                reported := some csvName, raised := none }
          | some e =>
              { decidedFilename := some fname, writes := [],
                reported := none, raised := some e }
      | some e =>
          { decidedFilename := some fname, writes := [], reported := none,
            raised := some e }
    else
      match csvWrite fname with
      | none =>
          { decidedFilename := some fname, writes := [fname],
            reported := some fname, raised := none }
      | some PyError.importError =>
          let csvName := pyReplace fname ".xlsx" ".csv"
          match csvWrite csvName with
          | none =>
              { decidedFilename := some fname, writes := [csvName],
                reported := some csvName, raised := none }
          | some e =>
              { decidedFilename := some fname, writes := [],
                reported := none, raised := some e }
      | some e =>
          { decidedFilename := some fname, writes := [], reported := none,
            raised := some e }

/-- Python truthiness of an optional string: `None` and the empty string
are falsy, every other string truthy. -/
def truthy : Option String → Bool
  | none => false
  | some s => !s.isEmpty

/-- Python `a or b` on optional strings: `a` when truthy, else `b`. -/
def pyOr (a b : Option String) : Option String :=
  if truthy a then a else b

/-- Observable outcome of the startup gate of `main` (lines 281-297):
whether it halted with the missing-credentials message and whether the
`XTopicAnalyzer` (holding both network clients) was constructed. -/
structure GateResult where
  halted : Bool
  clientConstructed : Bool
deriving Repr, DecidableEq

/-- Credential resolution and validation of `main`: each credential is
the CLI flag value or-else the environment value, and the run halts
before constructing any client when either resolved value is falsy. -/
def main_gate (cliBearer envBearer cliDeepseek envDeepseek : Option String) :
    GateResult :=
  let bearer := pyOr cliBearer envBearer
  let deepseek := pyOr cliDeepseek envDeepseek
  if !truthy bearer || !truthy deepseek then
    { halted := true, clientConstructed := false }
  else
    { halted := false, clientConstructed := true }

/-- Observable outcome of the post-gate part of `main` (lines 300-308):
the analyzed rows and whether `save_to_excel` was invoked. -/
structure RunResult where
  rows : List AnalyzedRow
  exportCalled : Bool
deriving Repr, DecidableEq

/-- Orchestration after the gate: analyze the topic, then export only
when the resulting frame is non-empty. -/
def run_analysis (searchCall : String → Nat → Except String SearchResponse)
    (completion : String → Except String (List String))
    (keyword : String) (max_posts : Nat) : RunResult :=
  let rows := analyze_topic searchCall completion keyword max_posts
  { rows := rows, exportCalled := !rows.isEmpty }

/-- Filename-generation rule as the specification words it (section 4.4):
extension chosen by the availability of the spreadsheet-styling
capability.  Kept separate from `genFilename`, which is translated from
the source, to compare the two. -/
def specGenFilename (stylingAvailable : Bool) (now : PyDateTime) : String :=
  if stylingAvailable then "x_analysis_" ++ strftimeStamp now ++ ".xlsx"
  else "x_analysis_" ++ strftimeStamp now ++ ".csv"

/-! Concrete sample data used by the closed witness and counterexample
statements. -/

/-- Sample wall-clock instant. -/
def sampleTs : PyDateTime :=
  { year := 2025, month := 2, day := 15, hour := 10, minute := 30, second := 0 }

/-- Sample author present in the `users` expansion. -/
def sampleUser : XUser :=
  { id := 1, username := "johntech", name := "John Tech", verified := true }

/-- Sample tweet whose author is in the expansion. -/
def sampleTweet : XTweet :=
  { id := 42, text := "hello ai world", created_at := sampleTs, author_id := 1,
    retweet_count := 3, like_count := 5, reply_count := 1 }

/-- Sample tweet whose author id is missing from the expansion. -/
def orphanTweet : XTweet :=
  { id := 43, text := "another post", created_at := sampleTs, author_id := 99,
    retweet_count := 0, like_count := 2, reply_count := 0 }

/-- Sample successful search response with one resolvable author. -/
def sampleResponse : SearchResponse :=
  { data := [sampleTweet, orphanTweet], includes_users := some [sampleUser] }

/-- Sample analyzed row. -/
def sampleRow : AnalyzedRow :=
  makeRow "ai" (postInfoOfTweet [sampleUser] sampleTweet) "A summary."

/-- Length of a string built from a character list is the list's length. -/
theorem string_length_mk (l : List Char) : (String.mk l).length = l.length := rfl

/-- Length of an appended string is the sum of the lengths. -/
theorem string_length_append (s t : String) : (s ++ t).length = s.length + t.length := by
  cases s with
  | mk a =>
    cases t with
    | mk b =>
      show (a ++ b).length = a.length + b.length
      exact List.length_append a b

/-- Assembling a posts list against summaries computed per post is the
same as mapping the row constructor over the posts. -/
theorem assembleRows_map (k : String) (g : PostInfo → String) (posts : List PostInfo) :
    assembleRows k posts (posts.map g) = posts.map (fun p => makeRow k p (g p)) := by
  induction posts with
  | nil => rfl
  | cons a l ih =>
    simp only [List.map_cons, assembleRows, List.zip_cons_cons] at ih ⊢
    rw [ih]

/-- C1: when the fetch stage succeeds and returns posts, `analyze_topic`
produces exactly one row per fetched post; when the fetch is empty the
run yields an empty result and `main` performs no export. -/
theorem analyze_row_count
    (searchCall : String → Nat → Except String SearchResponse)
    (completion : String → Except String (List String))
    (keyword : String) (max_posts : Nat) :
    (run_analysis searchCall completion keyword max_posts).rows.length
        = (search_x_posts searchCall keyword max_posts).length
    ∧ (search_x_posts searchCall keyword max_posts = [] →
        (run_analysis searchCall completion keyword max_posts).rows = []
        ∧ (run_analysis searchCall completion keyword max_posts).exportCalled = false) := by
  constructor
  · simp only [run_analysis, analyze_topic]
    cases hl : search_x_posts searchCall keyword max_posts with
    | nil => simp
    | cons a l => simp
  · intro h
    simp [run_analysis, analyze_topic, h]

/-- C2: a failing search call makes `search_x_posts` return the empty
list; the failure of the body never escapes the method. -/
theorem search_error_yields_empty
    (searchCall : String → Nat → Except String SearchResponse)
    (keyword : String) (max_results : Nat) (e : String)
    (h : searchCall (searchQuery keyword) (min max_results 100) = Except.error e) :
    search_x_posts searchCall keyword max_results = []
    ∧ search_x_posts_try searchCall keyword max_results = Except.error e := by
  have hb : search_x_posts_try searchCall keyword max_results = Except.error e := by
    unfold search_x_posts_try
    rw [h]
  exact ⟨by simp [search_x_posts, hb], hb⟩

/-- Witness for C2 at a concrete failing call. -/
theorem search_error_yields_empty_witness :
    search_x_posts (fun _ _ => Except.error "ConnectionError") "ai" 50 = [] :=
  (search_error_yields_empty (fun _ _ => Except.error "ConnectionError")
    "ai" 50 "ConnectionError" rfl).1

/-- C3: a failing completion call makes `generate_summary_with_deepseek`
return exactly the sentinel string, and each row of `analyze_topic` is
assembled from its own post and its own summary only, so one post's
failure cannot abort another post's summarization. -/
theorem summary_failure_sentinel
    (completion : String → Except String (List String))
    (text keyword : String) (e : String)
    (h : completion (summaryPrompt text keyword) = Except.error e) :
    generate_summary_with_deepseek completion text keyword = "Summary generation failed"
    ∧ ∀ (searchCall : String → Nat → Except String SearchResponse)
        (max_posts i : Nat) (post : PostInfo),
        (search_x_posts searchCall keyword max_posts).get? i = some post →
        (analyze_topic searchCall completion keyword max_posts).get? i
          = some (makeRow keyword post
              (generate_summary_with_deepseek completion post.text keyword)) := by
  constructor
  · unfold generate_summary_with_deepseek generate_summary_try
    rw [h]
  · intro searchCall max_posts i post hp
    simp only [analyze_topic]
    cases hl : search_x_posts searchCall keyword max_posts with
    | nil => rw [hl] at hp; simp at hp
    | cons a l =>
      rw [hl] at hp
      simp only [List.isEmpty_cons, if_false, Bool.false_eq_true]
      rw [List.get?_map, hp]
      rfl

/-- Witness for C3 at a concrete failing completion. -/
theorem summary_failure_sentinel_witness :
    generate_summary_with_deepseek (fun _ => Except.error "APIError") "post text" "ai"
      = "Summary generation failed" :=
  (summary_failure_sentinel (fun _ => Except.error "APIError")
    "post text" "ai" "APIError" rfl).1

/-- C4: the truncation of the Original Text column yields at most 203
characters, is the identity on texts of at most 200 characters, and on
longer texts keeps the first 200 characters and appends the 3-character
ellipsis marker. -/
theorem truncate_law (T : String) :
    (truncateText T).length ≤ 203
    ∧ (T.length ≤ 200 → truncateText T = T)
    ∧ (T.length > 200 → truncateText T = String.mk (T.data.take 200) ++ "...") := by
  refine ⟨?_, ?_, ?_⟩
  · by_cases h : T.length > 200
    · have he : truncateText T = String.mk (T.data.take 200) ++ "..." := by
        simp only [truncateText, if_pos h]
      rw [he, string_length_append, string_length_mk]
      have h2 : (T.data.take 200).length ≤ 200 := by
        rw [List.length_take]
        exact Nat.min_le_left 200 T.data.length
      have h3 : ("..." : String).length = 3 := rfl
      omega
    · have he : truncateText T = T := by
        simp only [truncateText, if_neg h]
      rw [he]
      omega
  · intro h
    simp only [truncateText, if_neg (by omega : ¬ T.length > 200)]
  · intro h
    simp only [truncateText, if_pos h]

/-- C5 counterexample: with a non-empty row set and an `.xlsx` filename,
a spreadsheet-write failure that is not an ImportError escapes both
exporters: nothing is written, no filename is reported, and in
particular the claimed fallback CSV name is not reported. -/
theorem save_fallback_counterexample :
    (mock_save_to_excel [sampleRow] (some "out.xlsx") sampleTs true
        (fun _ => some (PyError.otherError "PermissionError")) (fun _ => none)).reported
      ≠ some "out.csv"
    ∧ (mock_save_to_excel [sampleRow] (some "out.xlsx") sampleTs true
        (fun _ => some (PyError.otherError "PermissionError")) (fun _ => none)).writes = []
    ∧ (mock_save_to_excel [sampleRow] (some "out.xlsx") sampleTs true
        (fun _ => some (PyError.otherError "PermissionError")) (fun _ => none)).raised
      = some (PyError.otherError "PermissionError")
    ∧ (save_to_excel [sampleRow] (some "out.xlsx") sampleTs
        (fun _ => some (PyError.otherError "PermissionError"))).raised
      = some (PyError.otherError "PermissionError") := by
  decide

/-- C5 amended: in the mock exporter, an ImportError raised while
writing the spreadsheet triggers the fallback: the plain-delimited file
is written under the filename with `.xlsx` replaced by `.csv` and that
final filename is reported; a failure of any other kind escapes the
exporter with nothing written. -/
theorem save_fallback_amended (rows : List AnalyzedRow) (filename : String)
    (now : PyDateTime) (avail : Bool)
    (excelWrite csvWrite : String → Option PyError)
    (hrows : rows ≠ [])
    (hx : pyEndsWith filename ".xlsx" = true)
    (himp : excelWrite filename = some PyError.importError)
    (hcsv : csvWrite (pyReplace filename ".xlsx" ".csv") = none) :
    (mock_save_to_excel rows (some filename) now avail excelWrite csvWrite).writes
        = [pyReplace filename ".xlsx" ".csv"]
    ∧ (mock_save_to_excel rows (some filename) now avail excelWrite csvWrite).reported
        = some (pyReplace filename ".xlsx" ".csv")
    ∧ (mock_save_to_excel rows (some filename) now avail excelWrite csvWrite).raised
        = none
    ∧ ∀ (msg : String) (ew : String → Option PyError),
        ew filename = some (PyError.otherError msg) →
        (mock_save_to_excel rows (some filename) now avail ew csvWrite).raised
            = some (PyError.otherError msg)
        ∧ (mock_save_to_excel rows (some filename) now avail ew csvWrite).writes = [] := by
  have hne : rows.isEmpty = false := by
    cases rows with
    | nil => exact absurd rfl hrows
    | cons a t => rfl
  refine ⟨?_, ?_, ?_, ?_⟩
  · simp [mock_save_to_excel, hne, hx, himp, hcsv]
  · simp [mock_save_to_excel, hne, hx, himp, hcsv]
  · simp [mock_save_to_excel, hne, hx, himp, hcsv]
  · intro msg ew hew
    constructor
    · simp [mock_save_to_excel, hne, hx, hew]
    · simp [mock_save_to_excel, hne, hx, hew]

/-- Witness for the amended C5 at a concrete ImportError. -/
theorem save_fallback_amended_witness :
    (mock_save_to_excel [sampleRow] (some "out.xlsx") sampleTs true
        (fun _ => some PyError.importError) (fun _ => none)).reported = some "out.csv" := by
  have h := save_fallback_amended [sampleRow] "out.xlsx" sampleTs true
      (fun _ => some PyError.importError) (fun _ => none)
      (by decide) (by decide) rfl rfl
  rw [h.2.1]
  decide

/-- C6 counterexample: when no filename is given and the spreadsheet
capability is absent (the spreadsheet write raises ImportError), the
primary exporter still decides on the `.xlsx` name generated at lines
226-228, not the `.csv` name the specification words would give. -/
theorem gen_filename_counterexample :
    genFilename sampleTs ≠ specGenFilename false sampleTs
    ∧ pyEndsWith (genFilename sampleTs) ".csv" = false
    ∧ pyEndsWith (genFilename sampleTs) ".xlsx" = true
    ∧ (save_to_excel [sampleRow] none sampleTs
        (fun _ => some PyError.importError)).decidedFilename
      = some (genFilename sampleTs) := by
  decide

/-- C6 amended: with no filename given, the primary exporter always
generates `x_analysis_YYYYMMDD_HHMMSS.xlsx` from the current timestamp,
regardless of any spreadsheet capability; only the mock exporter chooses
the extension by the availability of openpyxl, `.xlsx` when importable
and `.csv` otherwise. -/
theorem gen_filename_amended (now : PyDateTime) (avail : Bool)
    (rows : List AnalyzedRow) (excelWrite : String → Option PyError)
    (hrows : rows ≠ []) :
    (save_to_excel rows none now excelWrite).decidedFilename
        = some ("x_analysis_" ++ strftimeStamp now ++ ".xlsx")
    ∧ mockGenFilename avail now
        = "x_analysis_mock_" ++ strftimeStamp now
            ++ (if avail then ".xlsx" else ".csv") := by
  have hne : rows.isEmpty = false := by
    cases rows with
    | nil => exact absurd rfl hrows
    | cons a t => rfl
  constructor
  · have h1 : (save_to_excel rows none now excelWrite).decidedFilename
        = some (genFilename now) := by
      cases h : excelWrite (genFilename now) with
      | none => simp [save_to_excel, hne, h]
      | some e => simp [save_to_excel, hne, h]
    rw [h1]
    rfl
  · cases avail <;> simp [mockGenFilename]

/-- Witness for the amended C6 at a concrete timestamp. -/
theorem gen_filename_amended_witness :
    (save_to_excel [sampleRow] none sampleTs (fun _ => none)).decidedFilename
        = some ("x_analysis_" ++ strftimeStamp sampleTs ++ ".xlsx") :=
  (gen_filename_amended sampleTs true [sampleRow] (fun _ => none) (by decide)).1

/-- C7: calling either exporter with an empty row set writes no file,
reports no saved filename and raises nothing: the call only prints the
nothing-to-save diagnostic and returns. -/
theorem export_empty_no_write (filename : Option String) (now : PyDateTime)
    (avail : Bool) (excelWrite csvWrite : String → Option PyError) :
    save_to_excel [] filename now excelWrite
        = { decidedFilename := none, writes := [], reported := none, raised := none }
    ∧ mock_save_to_excel [] filename now avail excelWrite csvWrite
        = { decidedFilename := none, writes := [], reported := none, raised := none } :=
  ⟨rfl, rfl⟩

/-- C8: a fetched post whose author id is not in the includes lookup is
mapped with the fallback values unknown/unknown/false, and the fetch as
a whole still succeeds. -/
theorem missing_author_fallback
    (searchCall : String → Nat → Except String SearchResponse)
    (keyword : String) (max_results : Nat)
    (resp : SearchResponse) (i : Nat) (tweet : XTweet)
    (hcall : searchCall (searchQuery keyword) (min max_results 100) = Except.ok resp)
    (ht : resp.data.get? i = some tweet)
    (hauthor : usersGet (resp.includes_users.getD []) tweet.author_id = none) :
    (search_x_posts searchCall keyword max_results).get? i
        = some (postInfoOfTweet (resp.includes_users.getD []) tweet)
    ∧ (postInfoOfTweet (resp.includes_users.getD []) tweet).author_name = "unknown"
    ∧ (postInfoOfTweet (resp.includes_users.getD []) tweet).author_username = "unknown"
    ∧ (postInfoOfTweet (resp.includes_users.getD []) tweet).author_verified = false
    ∧ search_x_posts_try searchCall keyword max_results
        = Except.ok (search_x_posts searchCall keyword max_results) := by
  have hne : resp.data.isEmpty = false := by
    cases hd : resp.data with
    | nil => rw [hd] at ht; simp at ht
    | cons a t => rfl
  have htry : search_x_posts_try searchCall keyword max_results
      = Except.ok (resp.data.map (postInfoOfTweet (resp.includes_users.getD []))) := by
    unfold search_x_posts_try
    rw [hcall]
    simp only [hne, Bool.false_eq_true, if_false]
  have hposts : search_x_posts searchCall keyword max_results
      = resp.data.map (postInfoOfTweet (resp.includes_users.getD [])) := by
    simp [search_x_posts, htry]
  refine ⟨?_, ?_, ?_, ?_, ?_⟩
  · rw [hposts, List.get?_map, ht]
    rfl
  · simp [postInfoOfTweet, hauthor]
  · simp [postInfoOfTweet, hauthor]
  · simp [postInfoOfTweet, hauthor]
  · rw [htry, hposts]

/-- Witness for C8 at a concrete response whose second tweet has no
author in the expansion. -/
theorem missing_author_fallback_witness :
    (search_x_posts (fun _ _ => Except.ok sampleResponse) "ai" 50).get? 1
        = some (postInfoOfTweet (sampleResponse.includes_users.getD []) orphanTweet)
    ∧ (postInfoOfTweet (sampleResponse.includes_users.getD []) orphanTweet).author_name
        = "unknown" :=
  ⟨(missing_author_fallback (fun _ _ => Except.ok sampleResponse) "ai" 50
      sampleResponse 1 orphanTweet rfl rfl rfl).1,
   (missing_author_fallback (fun _ _ => Except.ok sampleResponse) "ai" 50
      sampleResponse 1 orphanTweet rfl rfl rfl).2.1⟩

/-- C9: the row assembly is a deterministic pure function of the
keyword, the posts and the summaries: identical inputs give identical
row sequences, and `analyze_topic` produces exactly the assembly of its
fetched posts with their per-post summaries. -/
theorem assemble_deterministic (k1 k2 : String) (ps1 ps2 : List PostInfo)
    (ss1 ss2 : List String) (hk : k1 = k2) (hp : ps1 = ps2) (hs : ss1 = ss2) :
    assembleRows k1 ps1 ss1 = assembleRows k2 ps2 ss2
    ∧ ∀ (searchCall : String → Nat → Except String SearchResponse)
        (completion : String → Except String (List String)) (max_posts : Nat),
        analyze_topic searchCall completion k1 max_posts
          = assembleRows k1 (search_x_posts searchCall k1 max_posts)
              ((search_x_posts searchCall k1 max_posts).map
                (fun p => generate_summary_with_deepseek completion p.text k1)) := by
  subst hk
  subst hp
  subst hs
  refine ⟨rfl, ?_⟩
  intro searchCall completion max_posts
  simp only [analyze_topic]
  cases hl : search_x_posts searchCall k1 max_posts with
  | nil => simp [assembleRows]
  | cons a l =>
    simp only [List.isEmpty_cons, if_false, Bool.false_eq_true]
    rw [assembleRows_map]

/-- Witness for C9 at concrete equal inputs. -/
theorem assemble_deterministic_witness :
    assembleRows "ai" [postInfoOfTweet [sampleUser] sampleTweet] ["A summary."]
      = assembleRows "ai" [postInfoOfTweet [sampleUser] sampleTweet] ["A summary."] :=
  (assemble_deterministic "ai" "ai"
      [postInfoOfTweet [sampleUser] sampleTweet] [postInfoOfTweet [sampleUser] sampleTweet]
      ["A summary."] ["A summary."] rfl rfl rfl).1

/-- C10: the startup gate halts, before any client is constructed,
exactly when either resolved credential is falsy, and an empty-string
credential behaves identically to an absent one at every position of
the resolution. -/
theorem credential_gate (cliB envB cliD envD : Option String)
    (h : truthy (pyOr cliB envB) = false ∨ truthy (pyOr cliD envD) = false) :
    ((main_gate cliB envB cliD envD).halted = true
      ∧ (main_gate cliB envB cliD envD).clientConstructed = false)
    ∧ main_gate (some "") envB cliD envD = main_gate none envB cliD envD
    ∧ main_gate cliB (some "") cliD envD = main_gate cliB none cliD envD
    ∧ main_gate cliB envB (some "") envD = main_gate cliB envB none envD
    ∧ main_gate cliB envB cliD (some "") = main_gate cliB envB cliD none := by
  have hEmpty : truthy (some "") = false := rfl
  have hNone : truthy (none : Option String) = false := rfl
  refine ⟨?_, rfl, ?_, rfl, ?_⟩
  · rcases h with h | h <;> simp [main_gate, h]
  · by_cases hb : truthy cliB = true
    · simp [main_gate, pyOr, hb]
    · have hb' : truthy cliB = false := by
        revert hb
        cases truthy cliB <;> simp
      simp [main_gate, pyOr, hb', hEmpty, hNone]
  · by_cases hd : truthy cliD = true
    · simp [main_gate, pyOr, hd]
    · have hd' : truthy cliD = false := by
        revert hd
        cases truthy cliD <;> simp
      simp [main_gate, pyOr, hd', hEmpty, hNone]

/-- Witness for C10: an empty CLI bearer token with no environment
fallback halts the gate. -/
theorem credential_gate_witness :
    (main_gate (some "") none (some "key") none).halted = true
    ∧ (main_gate (some "") none (some "key") none).clientConstructed = false :=
  (credential_gate (some "") none (some "key") none (Or.inl rfl)).1

end XTopic
